import Mathlib

/-!
Verification development for the StudywithMe study-assistant application.
The core modules (tool registry, agent loop, planner fallback, short-term
conversation memory, RAG document indexing, and the LLM client helpers)
are embedded shallowly as executable Lean definitions, and the documented
properties are proved against them.  External collaborators (the hosted
LLM, the embedding backend, the vector store similarity search) appear as
explicit parameters, so their behaviour is universally quantified.
-/

namespace StudyWithMe

/-! Tool registry (src/core/tools.py) -/

/-- Python `user_request.lower()`, as a character list. -/
def pyLower (s : String) : List Char := s.data.map Char.toLower

/-- Whether the first character list starts the second one. -/
def startsWithChars : List Char → List Char → Bool
  | [], _ => true
  | _ :: _, [] => false
  | n :: ns, h :: hs => n == h && startsWithChars ns hs

/-- Whether the first character list occurs contiguously inside the
second one (Python `needle in haystack`). -/
def occursInChars (needle : List Char) : List Char → Bool
  | [] => needle.isEmpty
  | h :: hs => startsWithChars needle (h :: hs) || occursInChars needle hs

/-- Python `keyword in request_lower` substring test used by
`ToolRegistry.suggest_tools`. -/
def containsKeyword (request : String) (kw : String) : Bool :=
  occursInChars kw.data (pyLower request)

/-- Python `any(keyword in request_lower for keyword in kws)`. -/
def anyKeyword (request : String) (kws : List String) : Bool :=
  kws.any (fun k => containsKeyword request k)

def explainKeywords : List String :=
  ["explain", "what is", "how does", "help me understand", "clarify"]

def summarizeKeywords : List String :=
  ["summarize", "summary", "tldr", "main points", "key points", "condense"]

def quizKeywords : List String :=
  ["quiz", "test", "practice", "questions", "mcq", "exam prep"]

def solveKeywords : List String :=
  ["solve", "answer", "solution", "work out", "calculate"]

def evaluateKeywords : List String :=
  ["check", "evaluate", "grade", "feedback", "review my answer"]

/-- Metadata of a registered tool (the `Tool` dataclass; the description
string and callable are irrelevant to the registry logic modelled here). -/
structure ToolInfo where
  name : String
  category : String
  requiresPdf : Bool
deriving DecidableEq

/-- The five tools registered by `ToolRegistry._register_default_tools`,
in registration (declaration) order, with their `requires_pdf` flags. -/
def registryTools : List ToolInfo :=
  [⟨"concept_explainer", "learning", false⟩,
   ⟨"content_summarizer", "comprehension", true⟩,
   ⟨"quiz_generator", "assessment", false⟩,
   ⟨"question_solver", "problem_solving", false⟩,
   ⟨"answer_evaluator", "assessment", false⟩]

/-- Dictionary lookup `self.tools[name]` (as an `Option`). -/
def lookupTool (n : String) : Option ToolInfo :=
  registryTools.find? (fun t => t.name == n)

/-- `self.tools[s].requires_pdf` for a name present in the registry. -/
def requiresPdfFlag (n : String) : Bool :=
  (Option.map (fun t => t.requiresPdf) (lookupTool n)).getD false

def toolNamesInOrder : List String := registryTools.map (fun t => t.name)

/-- The suggestion list built by the five keyword conditionals of
`suggest_tools`, abstracted over the outcome of each keyword test, with
the default of `concept_explainer` when nothing matched. -/
def mkBase (b1 b2 b3 b4 b5 : Bool) : List String :=
  let suggestions :=
    (if b1 then ["concept_explainer"] else []) ++
    (if b2 then ["content_summarizer"] else []) ++
    (if b3 then ["quiz_generator"] else []) ++
    (if b4 then ["question_solver"] else []) ++
    (if b5 then ["answer_evaluator"] else [])
  if suggestions = [] then ["concept_explainer"] else suggestions

/-- The suggestion list of `ToolRegistry.suggest_tools` before the
PDF-availability filter. -/
def baseSuggestions (request : String) : List String :=
  mkBase (anyKeyword request explainKeywords)
    (anyKeyword request summarizeKeywords)
    (anyKeyword request quizKeywords)
    (anyKeyword request solveKeywords)
    (anyKeyword request evaluateKeywords)

/-- `ToolRegistry.suggest_tools(user_request, has_pdf)`. -/
def suggestTools (request : String) (hasPdf : Bool) : List String :=
  let suggestions := baseSuggestions request
  if hasPdf then suggestions
  else suggestions.filter (fun s => !(requiresPdfFlag s) || s == "concept_explainer")

lemma mkBase_ne_nil (b1 b2 b3 b4 b5 : Bool) : mkBase b1 b2 b3 b4 b5 ≠ [] := by
  cases b1 <;> cases b2 <;> cases b3 <;> cases b4 <;> cases b5 <;> decide

lemma mkBase_sublist (b1 b2 b3 b4 b5 : Bool) :
    List.Sublist (mkBase b1 b2 b3 b4 b5) toolNamesInOrder := by
  cases b1 <;> cases b2 <;> cases b3 <;> cases b4 <;> cases b5 <;> decide

lemma mkBase_filter_eq (b1 b2 b3 b4 b5 : Bool) :
    (mkBase b1 b2 b3 b4 b5).filter
        (fun s => !(requiresPdfFlag s) || s == "concept_explainer")
      = (mkBase b1 b2 b3 b4 b5).filter (fun s => decide (s ≠ "content_summarizer")) := by
  cases b1 <;> cases b2 <;> cases b3 <;> cases b4 <;> cases b5 <;> decide

lemma mkBase_filter_empty_iff (b1 b2 b3 b4 b5 : Bool) :
    (mkBase b1 b2 b3 b4 b5).filter (fun s => decide (s ≠ "content_summarizer")) = [] ↔
      mkBase b1 b2 b3 b4 b5 = ["content_summarizer"] := by
  cases b1 <;> cases b2 <;> cases b3 <;> cases b4 <;> cases b5 <;> decide

lemma mkBase_default (b1 b2 b3 b4 b5 : Bool) :
    b1 = false → b2 = false → b3 = false → b4 = false → b5 = false →
      mkBase b1 b2 b3 b4 b5 = ["concept_explainer"] := by
  cases b1 <;> cases b2 <;> cases b3 <;> cases b4 <;> cases b5 <;> decide

/-- C7 counterexample: a pure summarize request with no document loaded
yields the empty suggestion list — the base list is exactly the
summarizer, which the no-PDF filter removes. -/
theorem suggest_tools_can_return_empty :
    suggestTools "summarize this" false = [] := by decide

/-- C7 (amended): `suggest_tools` returns the keyword matches in
declaration order (a sublist of the registry order), defaulting to the
explain tool when no keyword matches; when no document is loaded, the
PDF-requiring summarizer is filtered out (the explain tool is always
kept); the result is non-empty except precisely when no document is
loaded and the keyword matches are exactly the summarizer tool. -/
theorem suggest_tools_spec (request : String) (hasPdf : Bool) :
    baseSuggestions request ≠ [] ∧
    List.Sublist (baseSuggestions request) toolNamesInOrder ∧
    (anyKeyword request explainKeywords = false →
      anyKeyword request summarizeKeywords = false →
      anyKeyword request quizKeywords = false →
      anyKeyword request solveKeywords = false →
      anyKeyword request evaluateKeywords = false →
      baseSuggestions request = ["concept_explainer"]) ∧
    suggestTools request hasPdf =
      (if hasPdf then baseSuggestions request
       else (baseSuggestions request).filter (fun s => decide (s ≠ "content_summarizer"))) ∧
    (suggestTools request hasPdf = [] ↔
      hasPdf = false ∧ baseSuggestions request = ["content_summarizer"]) := by
  have h1 : baseSuggestions request ≠ [] := mkBase_ne_nil _ _ _ _ _
  have h3 : (baseSuggestions request).filter
        (fun s => !(requiresPdfFlag s) || s == "concept_explainer")
      = (baseSuggestions request).filter (fun s => decide (s ≠ "content_summarizer")) :=
    mkBase_filter_eq _ _ _ _ _
  have h4 : (baseSuggestions request).filter (fun s => decide (s ≠ "content_summarizer")) = [] ↔
      baseSuggestions request = ["content_summarizer"] :=
    mkBase_filter_empty_iff _ _ _ _ _
  have e4 : suggestTools request hasPdf =
      (if hasPdf then baseSuggestions request
       else (baseSuggestions request).filter (fun s => decide (s ≠ "content_summarizer"))) := by
    cases hasPdf with
    | false => simpa [suggestTools] using h3
    | true => simp [suggestTools]
  refine ⟨h1, mkBase_sublist _ _ _ _ _,
    fun a b c d e => mkBase_default _ _ _ _ _ a b c d e, e4, ?_⟩
  rw [e4]
  cases hasPdf with
  | false => simpa using h4
  | true => simp [h1]

/-- C7 witness: a request matching no keyword set defaults to the explain
tool. -/
theorem suggest_tools_spec_witness :
    baseSuggestions "hello" = ["concept_explainer"] :=
  (suggest_tools_spec "hello" false).2.2.1 (by decide) (by decide) (by decide)
    (by decide) (by decide)

/-! Agent plans (src/core/agent.py) and planner plans (src/core/planner.py)

The planning LLM reply and its JSON decoding are external to the repository
logic; `StudyBuddyAgent.think` and `AgentPlanner.create_plan` are therefore
embedded as functions of the parse outcome (`Except.ok` carries an already
decoded plan, `Except.error` the exception message), which makes their
`except` fallback branches explicit. -/

/-- One entry of the `execution_plan` list in the dict returned by
`StudyBuddyAgent.think`. -/
structure AgentPlanStep where
  step : Nat
  action : String
  tool : String
  reason : String
deriving DecidableEq, Inhabited

/-- The plan dict produced by `StudyBuddyAgent.think` (missing JSON keys
read through `.get(key, default)` are identified with their defaults). -/
structure AgentPlan where
  userIntent : String
  complexity : String
  toolsNeeded : List String
  executionPlan : List AgentPlanStep
  proactiveSuggestions : List String
  confidence : ℚ
  errorInfo : Option String
deriving DecidableEq, Inhabited

/-- The hard-coded fallback dict built by the `except` branch of
`StudyBuddyAgent.think`. -/
def agentFallbackPlan (userRequest errMsg : String) : AgentPlan :=
  { userIntent := userRequest
    complexity := "simple"
    toolsNeeded := ["concept_explainer"]
    executionPlan := [⟨1, "Respond to user", "concept_explainer", "Direct response"⟩]
    proactiveSuggestions := []
    confidence := 1/2
    errorInfo := some errMsg }

/-- `StudyBuddyAgent.think`, abstracted over the parse outcome of the
planning reply. -/
def agentThink (parsed : Except String AgentPlan) (userRequest : String) : AgentPlan :=
  match parsed with
  | Except.ok p => p
  | Except.error e => agentFallbackPlan userRequest e

/-- The `PlanStep` dataclass of src/core/planner.py. -/
structure PlannerStep where
  stepNumber : Nat
  action : String
  tool : String
  reason : String
  dependencies : List Nat
  estimatedTime : String
deriving DecidableEq, Inhabited

/-- The `ExecutionPlan` dataclass of src/core/planner.py. -/
structure ExecutionPlan where
  userIntent : String
  complexity : String
  steps : List PlannerStep
  proactiveSuggestions : List String
  confidence : ℚ
  reasoning : String
deriving DecidableEq, Inhabited

/-- `AgentPlanner._create_fallback_plan(user_request, has_pdf)`. -/
def createFallbackPlan (userRequest : String) (hasPdf : Bool) : ExecutionPlan :=
  let primaryTool := (suggestTools userRequest hasPdf).headD "concept_explainer"
  { userIntent := userRequest
    complexity := "simple"
    steps := [⟨1, "Respond to user request", primaryTool,
      "Direct response to user query", [], "quick"⟩]
    proactiveSuggestions := ["Would you like a quiz on this topic?"]
    confidence := 3/5
    reasoning := "Fallback plan - using best-guess tool" }

/-- `AgentPlanner.create_plan`, abstracted over the parse outcome of the
planning reply; any parse exception lands in `_create_fallback_plan`. -/
def plannerCreatePlan (parsed : Except String ExecutionPlan)
    (userRequest : String) (hasPdf : Bool) : ExecutionPlan :=
  match parsed with
  | Except.ok p => p
  | Except.error _ => createFallbackPlan userRequest hasPdf

/-- C1 counterexample: on a parse failure for the request "quiz me", the
own fallback of the agent loop (`StudyBuddyAgent.think`) fixes the step tool to
`concept_explainer` and attaches no suggestion, although the
keyword-suggestion function on the same request returns `quiz_generator`
only — so the fallback tool is not the suggested one and no quiz
suggestion is attached. -/
theorem agent_fallback_not_keyword_suggested :
    (agentThink (Except.error "Expecting value") "quiz me").executionPlan.map
        (fun s => s.tool) = ["concept_explainer"] ∧
    suggestTools "quiz me" false = ["quiz_generator"] ∧
    "concept_explainer" ∉ suggestTools "quiz me" false ∧
    (agentThink (Except.error "Expecting value") "quiz me").proactiveSuggestions = [] := by
  decide

/-- C1 (amended): when the planning reply fails to parse, plan creation
still returns a non-empty single-step plan in both implementations; in
`AgentPlanner.create_plan` the step tool is the head of
`ToolRegistry.suggest_tools` on the same request (defaulting to
`concept_explainer`), with confidence 0.6 and a suggestion to try a quiz
next; in the agent loop itself (`StudyBuddyAgent.think`) the fallback tool
is fixed to `concept_explainer`, with confidence 0.5 and no suggestions. -/
theorem fallback_plan_spec (userRequest errMsg : String) (hasPdf : Bool) :
    (plannerCreatePlan (Except.error errMsg) userRequest hasPdf).steps.map
        (fun s => s.tool) = [(suggestTools userRequest hasPdf).headD "concept_explainer"] ∧
    (plannerCreatePlan (Except.error errMsg) userRequest hasPdf).confidence = 3/5 ∧
    (plannerCreatePlan (Except.error errMsg) userRequest hasPdf).proactiveSuggestions
        = ["Would you like a quiz on this topic?"] ∧
    (agentThink (Except.error errMsg) userRequest).executionPlan.map
        (fun s => s.tool) = ["concept_explainer"] ∧
    (agentThink (Except.error errMsg) userRequest).confidence = 1/2 ∧
    (agentThink (Except.error errMsg) userRequest).proactiveSuggestions = [] :=
  ⟨rfl, rfl, rfl, rfl, rfl, rfl⟩

/-! Short-term conversation memory (src/core/memory.py) -/

/-- The `ConversationTurn` dataclass (metadata modelled as an association
list). -/
structure ConversationTurn where
  timestamp : String
  userInput : String
  agentResponse : String
  toolsUsed : List String
  planComplexity : String
  metadata : List (String × String)
deriving DecidableEq, Inhabited

/-- The arguments of one `ShortTermMemory.add_turn` call (the timestamp
stands for `datetime.now().isoformat()`, supplied by the environment;
`metadata=None` is `Option.none`). -/
structure TurnInput where
  timestamp : String
  userInput : String
  agentResponse : String
  toolsUsed : List String
  planComplexity : String
  metadata : Option (List (String × String))
deriving DecidableEq, Inhabited

/-- The `ConversationTurn` record that `add_turn` constructs: the agent
response is truncated to 500 characters and `metadata or {}` defaults to
the empty dict. -/
def mkTurn (i : TurnInput) : ConversationTurn :=
  ⟨i.timestamp, i.userInput, i.agentResponse.take 500, i.toolsUsed,
    i.planComplexity, i.metadata.getD []⟩

/-- `ShortTermMemory` state: the configured window, the turn list and the
derived context string. -/
structure ShortTermMemory where
  maxTurns : Nat
  conversation : List ConversationTurn
  currentContext : String
deriving DecidableEq, Inhabited

/-- `ShortTermMemory._update_context`: the last five turns rendered as
alternating `User:`/`Assistant:` lines (assistant text further truncated
to 200 characters). -/
def updateContext (conversation : List ConversationTurn) : String :=
  String.intercalate "\n"
    (((conversation.drop (conversation.length - 5)).map
      (fun t => ["User: " ++ t.userInput,
                 "Assistant: " ++ t.agentResponse.take 200 ++ "..."])).flatten)

/-- `ShortTermMemory.add_turn`: append the new turn, evict the oldest
turn when the window is exceeded, then refresh the context string. -/
def addTurn (m : ShortTermMemory) (i : TurnInput) : ShortTermMemory :=
  let conv1 := m.conversation ++ [mkTurn i]
  let conv2 := if m.maxTurns < conv1.length then conv1.tail else conv1
  { m with conversation := conv2, currentContext := updateContext conv2 }

/-- A sequence of `add_turn` calls. -/
def addTurns (m : ShortTermMemory) (is : List TurnInput) : ShortTermMemory :=
  is.foldl addTurn m

/-- `ShortTermMemory.__init__` (the application constructs it with the
default window, `max_turns=10`). -/
def initShortTermMemory (maxTurns : Nat) : ShortTermMemory :=
  ⟨maxTurns, [], ""⟩

lemma addTurn_maxTurns (m : ShortTermMemory) (i : TurnInput) :
    (addTurn m i).maxTurns = m.maxTurns := rfl

lemma addTurn_conversation (m : ShortTermMemory) (i : TurnInput)
    (h : m.conversation.length ≤ m.maxTurns) :
    (addTurn m i).conversation =
      (m.conversation ++ [mkTurn i]).drop ((m.conversation.length + 1) - m.maxTurns) := by
  show (if m.maxTurns < (m.conversation ++ [mkTurn i]).length then
      (m.conversation ++ [mkTurn i]).tail else m.conversation ++ [mkTurn i]) = _
  rw [List.length_append, List.length_singleton]
  rcases Nat.lt_or_ge m.maxTurns (m.conversation.length + 1) with hlt | hge
  · have hmax : m.maxTurns = m.conversation.length := by omega
    rw [if_pos hlt, hmax, Nat.add_sub_cancel_left, ← List.drop_one]
  · rw [if_neg (by omega), Nat.sub_eq_zero_of_le hge, List.drop_zero]

lemma addTurns_conversation (is : List TurnInput) :
    ∀ m : ShortTermMemory, m.conversation.length ≤ m.maxTurns →
      (addTurns m is).conversation =
        (m.conversation ++ is.map mkTurn).drop
          ((m.conversation.length + is.length) - m.maxTurns) := by
  induction is with
  | nil =>
    intro m h
    simp [addTurns, Nat.sub_eq_zero_of_le h]
  | cons i rest ih =>
    intro m h
    have hstep := addTurn_conversation m i h
    have hlen1 : (addTurn m i).conversation.length =
        (m.conversation.length + 1) - ((m.conversation.length + 1) - m.maxTurns) := by
      rw [hstep, List.length_drop, List.length_append, List.length_singleton]
    have hinv : (addTurn m i).conversation.length ≤ (addTurn m i).maxTurns := by
      rw [hlen1, addTurn_maxTurns]; omega
    have hrec := ih (addTurn m i) hinv
    have hd : (m.conversation.length + 1) - m.maxTurns ≤
        (m.conversation ++ [mkTurn i]).length := by
      rw [List.length_append, List.length_singleton]; omega
    show (addTurns (addTurn m i) rest).conversation = _
    rw [hrec, addTurn_maxTurns, hlen1, hstep,
      ← List.drop_append_of_le_length hd, List.drop_drop,
      List.append_assoc, List.singleton_append, ← List.map_cons]
    congr 1
    simp only [List.length_cons]
    omega

/-- C2: starting from an empty `ShortTermMemory` with window `N`, the
stored conversation never exceeds `N` turns after any sequence of
`add_turn` calls, and after inserting `N + 1` turns the conversation is
exactly the last `N` inserted turns in insertion order — the first
inserted turn has been evicted (FIFO). -/
theorem short_term_memory_fifo (N : Nat) (is : List TurnInput) :
    (addTurns (initShortTermMemory N) is).conversation.length ≤ N ∧
    (is.length = N + 1 →
      (addTurns (initShortTermMemory N) is).conversation = (is.map mkTurn).drop 1) := by
  have hc : (initShortTermMemory N).conversation = [] := rfl
  have hm : (initShortTermMemory N).maxTurns = N := rfl
  have h := addTurns_conversation is (initShortTermMemory N) (by rw [hc, hm]; simp)
  rw [hc, hm] at h
  simp only [List.nil_append, List.length_nil, Nat.zero_add] at h
  constructor
  · rw [h, List.length_drop, List.length_map]; omega
  · intro hN
    rw [h, hN]
    congr 1
    omega

/-- C2 witness: with window 1, inserting two turns leaves exactly the
second one. -/
theorem short_term_memory_fifo_witness :
    (addTurns (initShortTermMemory 1)
        [⟨"t1", "u1", "r1", [], "simple", none⟩,
         ⟨"t2", "u2", "r2", ["quiz_generator"], "simple", none⟩]).conversation
      = ([(⟨"t1", "u1", "r1", [], "simple", none⟩ : TurnInput),
          ⟨"t2", "u2", "r2", ["quiz_generator"], "simple", none⟩].map mkTurn).drop 1 :=
  (short_term_memory_fifo 1
    [⟨"t1", "u1", "r1", [], "simple", none⟩,
     ⟨"t2", "u2", "r2", ["quiz_generator"], "simple", none⟩]).2 rfl

/-! RAG document indexing (src/core/rag_system.py)

The text splitter (`RecursiveCharacterTextSplitter`) and the vector store
(`Chroma`) are imported libraries, not repository code.  The splitter is
modelled from the spec; the embedding backend call that `Chroma.from_texts`
performs can fail, so it appears as an explicit outcome parameter. -/

/-- Python `str.strip()` on a character list. -/
def pyStrip (t : List Char) : List Char :=
  ((t.dropWhile Char.isWhitespace).reverse.dropWhile Char.isWhitespace).reverse

/-- Modelled from the spec: the chunking policy of the Document Retriever,
which is delegated to the external `RecursiveCharacterTextSplitter` and is
not part of the repository source.  Following the spec, chunking produces
fixed-size overlapping windows over the raw text: windows of `chunkSize`
characters starting at multiples of `chunkSize - overlap`, for every such
start position inside the text (consecutive chunks share `overlap`
characters). -/
def splitText (chunkSize overlap : Nat) (t : List Char) : List (List Char) :=
  (List.range ((t.length + (chunkSize - overlap) - 1) / (chunkSize - overlap))).map
    (fun k => (t.drop (k * (chunkSize - overlap))).take chunkSize)

/-- Closed-form chunk count: the number of chunks depends only on the text
length and the fixed chunk-size and overlap parameters. -/
def numChunks (chunkSize overlap textLength : Nat) : Nat :=
  (textLength + (chunkSize - overlap) - 1) / (chunkSize - overlap)

/-- `RAGSystem` state: whether `_initialize_embeddings` succeeded (set in
`__init__` and never changed afterwards), the current index (`None` or the
chunks it was built from), and `chunk_count`. -/
structure RAGState where
  embeddingsOk : Bool
  vectorstore : Option (List (List Char))
  chunkCount : Nat
deriving DecidableEq, Inhabited

def tooShortMsg : String :=
  "❌ PDF text too short to process (minimum 50 characters required)"

def noEmbeddingsMsg : String :=
  "❌ Embedding model not initialized. Check GEMINI_API_KEY."

def noChunksMsg : String := "❌ No chunks created from PDF text"

def ragErrorMsg (e : String) : String := "❌ Error processing PDF for RAG: " ++ e

def ragOkMsg (n : Nat) : String :=
  "✅ RAG enabled: " ++ toString n ++ " chunks created & indexed"

/-- `RAGSystem.process_pdf(pdf_text, chunk_size, chunk_overlap)`.
`embedOutcome` is the outcome of the external `Chroma.from_texts`
embedding call (`Except.error` carries the exception message caught by the
`except` branch).  Returns the `(success, message)` pair and the updated
state; note that `chunk_count` is assigned before the embedding call, so a
failing call still overwrites it. -/
def processPdf (chunkSize overlap : Nat) (s : RAGState) (pdfText : List Char)
    (embedOutcome : Except String Unit) : (Bool × String) × RAGState :=
  if pdfText = [] ∨ (pyStrip pdfText).length < 50 then
    ((false, tooShortMsg), s)
  else if s.embeddingsOk = false then
    ((false, noEmbeddingsMsg), s)
  else
    let chunks := splitText chunkSize overlap pdfText
    let s1 : RAGState := { s with chunkCount := chunks.length }
    if chunks.length = 0 then ((false, noChunksMsg), s1)
    else
      match embedOutcome with
      | Except.ok _ => ((true, ragOkMsg chunks.length), { s1 with vectorstore := some chunks })
      | Except.error e => ((false, ragErrorMsg e), s1)

/-- The chunks handed back by `retrieve_context`: the external
`similarity_search` returns `k` documents drawn from the stored index,
modelled by a selection of chunk indices chosen by the library. -/
def retrievedChunks (s : RAGState) (sel : List Nat) : List (List Char) :=
  match s.vectorstore with
  | none => []
  | some chunks => sel.filterMap (fun i => chunks.get? i)

/-- `RAGSystem.retrieve_context`: empty when no index is present,
otherwise the selected chunks joined with the visible separator. -/
def retrieveContext (s : RAGState) (sel : List Nat) : List Char :=
  match s.vectorstore with
  | none => []
  | some _ =>
    (String.intercalate "\n\n--- Retrieved Section ---\n\n"
      ((retrievedChunks s sel).map (fun c => String.mk c))).data

/-- `RAGSystem.is_ready()`. -/
def isReady (s : RAGState) : Bool := s.vectorstore.isSome

/-- An operation on the shared `RAGSystem` instance. -/
inductive RAGOp where
  | processPdf (pdfText : List Char) (embedOutcome : Except String Unit)
  | retrieveContext (query : List Char) (sel : List Nat)
  | reset

/-- State transition of one operation (`retrieve_context` reads but never
writes; `reset` clears the index and the chunk count). -/
def ragStep (s : RAGState) (op : RAGOp) : RAGState :=
  match op with
  | RAGOp.processPdf t e => (processPdf 1500 150 s t e).2
  | RAGOp.retrieveContext _ _ => s
  | RAGOp.reset => { s with vectorstore := none, chunkCount := 0 }

def ragRun (ops : List RAGOp) (s : RAGState) : RAGState := ops.foldl ragStep s

/-- `RAGSystem.__init__`: no index, zero chunks; `embOk` records whether
the embedding model initialisation succeeded. -/
def ragInit (embOk : Bool) : RAGState := ⟨embOk, none, 0⟩

/-- Whether a `process_pdf` call succeeds (reaches the line that installs
the new vector store), given the embeddings flag of the state it runs in. -/
def uploadOk (emb : Bool) (t : List Char) (e : Except String Unit) : Bool :=
  !(decide (t = [] ∨ (pyStrip t).length < 50)) && emb &&
    !(decide ((splitText 1500 150 t).length = 0)) &&
    (match e with | Except.ok _ => true | Except.error _ => false)

/-- The text of the most recent successful upload after a sequence of
operations, starting from a given previous value. -/
def lastGoodUploadFrom (emb : Bool) (a : Option (List Char)) (ops : List RAGOp) :
    Option (List Char) :=
  ops.foldl (fun acc op =>
    match op with
    | RAGOp.processPdf t e => if uploadOk emb t e then some t else acc
    | RAGOp.retrieveContext _ _ => acc
    | RAGOp.reset => none) a

def lastGoodUpload (emb : Bool) (ops : List RAGOp) : Option (List Char) :=
  lastGoodUploadFrom emb none ops

lemma processPdf_embeddingsOk (s : RAGState) (t : List Char) (e : Except String Unit) :
    (processPdf 1500 150 s t e).2.embeddingsOk = s.embeddingsOk := by
  by_cases h1 : t = [] ∨ (pyStrip t).length < 50
  · simp [processPdf, h1]
  · by_cases h2 : s.embeddingsOk = false
    · simp [processPdf, h1, h2]
    · by_cases h3 : (splitText 1500 150 t).length = 0
      · simp [processPdf, h1, h2, h3]
      · cases e with
        | ok u => simp [processPdf, h1, h2, h3]
        | error msg => simp [processPdf, h1, h2, h3]

lemma processPdf_vectorstore (s : RAGState) (t : List Char) (e : Except String Unit) :
    (processPdf 1500 150 s t e).2.vectorstore =
      (if uploadOk s.embeddingsOk t e then some (splitText 1500 150 t)
       else s.vectorstore) := by
  by_cases h1 : t = [] ∨ (pyStrip t).length < 50
  · simp [processPdf, uploadOk, h1]
  · by_cases h2 : s.embeddingsOk = false
    · simp [processPdf, uploadOk, h1, h2]
    · by_cases h3 : (splitText 1500 150 t).length = 0
      · simp [processPdf, uploadOk, h1, h2, h3]
      · cases e with
        | ok u => simp [processPdf, uploadOk, h1, h2, h3]
        | error msg => simp [processPdf, uploadOk, h1, h2, h3]

lemma ragStep_embeddingsOk (s : RAGState) (op : RAGOp) :
    (ragStep s op).embeddingsOk = s.embeddingsOk := by
  cases op with
  | processPdf t e => exact processPdf_embeddingsOk s t e
  | retrieveContext q sel => rfl
  | reset => rfl

lemma ragRun_vectorstore (ops : List RAGOp) :
    ∀ (s : RAGState) (a : Option (List Char)),
      s.vectorstore = Option.map (splitText 1500 150) a →
      (ragRun ops s).vectorstore =
        Option.map (splitText 1500 150) (lastGoodUploadFrom s.embeddingsOk a ops) := by
  induction ops with
  | nil => intro s a ha; exact ha
  | cons op rest ih =>
    intro s a ha
    have hstepv : (ragStep s op).vectorstore =
        Option.map (splitText 1500 150)
          (match op with
           | RAGOp.processPdf t e => if uploadOk s.embeddingsOk t e then some t else a
           | RAGOp.retrieveContext _ _ => a
           | RAGOp.reset => none) := by
      cases op with
      | processPdf t e =>
        show (processPdf 1500 150 s t e).2.vectorstore = _
        rw [processPdf_vectorstore]
        by_cases h : uploadOk s.embeddingsOk t e
        · simp [h]
        · simp [h, ha]
      | retrieveContext q sel => exact ha
      | reset => rfl
    have hrec := ih (ragStep s op) _ hstepv
    rw [ragStep_embeddingsOk] at hrec
    show (ragRun rest (ragStep s op)).vectorstore = _
    rw [hrec]
    cases op <;> rfl

/-- C3: in every reachable state of the RAG system, the index, when
present, is exactly the chunking of the text of the most recent successful
`process_pdf` upload — a successful upload replaces any prior index
wholesale, a failed upload never installs its document, a `reset` drops
the index, and chunks of different uploads are never merged — and
`is_ready()` holds exactly when such an upload exists since the last
reset. -/
theorem rag_index_is_latest_successful_upload (emb : Bool) (ops : List RAGOp) :
    (ragRun ops (ragInit emb)).vectorstore =
      Option.map (splitText 1500 150) (lastGoodUpload emb ops) ∧
    isReady (ragRun ops (ragInit emb)) = (lastGoodUpload emb ops).isSome := by
  have h : (ragRun ops (ragInit emb)).vectorstore =
      Option.map (splitText 1500 150) (lastGoodUpload emb ops) :=
    ragRun_vectorstore ops (ragInit emb) none rfl
  refine ⟨h, ?_⟩
  rw [isReady, h]
  cases lastGoodUpload emb ops <;> rfl

lemma retrievedChunks_none (s : RAGState) (sel : List Nat)
    (h : s.vectorstore = none) : retrievedChunks s sel = [] := by
  rw [retrievedChunks, h]

lemma retrievedChunks_some (s : RAGState) (sel : List Nat) (chunks : List (List Char))
    (h : s.vectorstore = some chunks) :
    retrievedChunks s sel = sel.filterMap (fun i => chunks.get? i) := by
  rw [retrievedChunks, h]

lemma lastGoodUploadFrom_good (emb : Bool) (ops : List RAGOp) :
    ∀ (a : Option (List Char)) (u : List Char),
      lastGoodUploadFrom emb a ops = some u →
      (¬(u = [] ∨ (pyStrip u).length < 50)) ∨ a = some u := by
  induction ops with
  | nil => intro a u h; exact Or.inr h
  | cons op rest ih =>
    intro a u h
    cases op with
    | processPdf t e =>
      by_cases hok : uploadOk emb t e
      · have h' : lastGoodUploadFrom emb (some t) rest = some u := by
          simpa [lastGoodUploadFrom, hok] using h
        rcases ih (some t) u h' with hg | heq
        · exact Or.inl hg
        · left
          obtain rfl : t = u := by injection heq
          have : !(decide (t = [] ∨ (pyStrip t).length < 50)) = true := by
            have := hok
            simp [uploadOk] at this
            simp [this.1.1.1]
          simpa using this
      · have h' : lastGoodUploadFrom emb a rest = some u := by
          simpa [lastGoodUploadFrom, hok] using h
        exact ih a u h'
    | retrieveContext q sel => exact ih a u h
    | reset =>
      have h' : lastGoodUploadFrom emb none rest = some u := h
      rcases ih none u h' with hg | heq
      · exact Or.inl hg
      · exact absurd heq (by simp)

/-- C4: a document that is empty or shorter than 50 characters after
stripping whitespace is rejected by `process_pdf` with the fixed
too-short message and the state is left entirely unchanged (no chunking,
no embedding); moreover in any reachable state every chunk obtainable
through `retrieve_context` comes from the chunking of some text of
stripped length at least 50 — content of a too-short document is never
retrievable. -/
theorem rag_rejects_short_text (t : List Char)
    (h : t = [] ∨ (pyStrip t).length < 50) :
    (∀ (s : RAGState) (e : Except String Unit),
        processPdf 1500 150 s t e = ((false, tooShortMsg), s)) ∧
    (∀ (emb : Bool) (ops : List RAGOp) (sel : List Nat) (c : List Char),
        c ∈ retrievedChunks (ragRun ops (ragInit emb)) sel →
        ∃ u : List Char, 50 ≤ (pyStrip u).length ∧ c ∈ splitText 1500 150 u) := by
  constructor
  · intro s e
    simp [processPdf, h]
  · intro emb ops sel c hc
    have hv : (ragRun ops (ragInit emb)).vectorstore =
        Option.map (splitText 1500 150) (lastGoodUpload emb ops) :=
      ragRun_vectorstore ops (ragInit emb) none rfl
    rcases hg : lastGoodUpload emb ops with _ | u
    · rw [hg] at hv
      have hnone : (ragRun ops (ragInit emb)).vectorstore = none := hv
      rw [retrievedChunks_none _ sel hnone] at hc
      exact absurd hc (List.not_mem_nil c)
    · rw [hg] at hv
      have hsome : (ragRun ops (ragInit emb)).vectorstore =
          some (splitText 1500 150 u) := hv
      refine ⟨u, ?_, ?_⟩
      · rcases lastGoodUploadFrom_good emb ops none u hg with hgood | habs
        · rcases Nat.lt_or_ge (pyStrip u).length 50 with hlt | hge
          · exact absurd (Or.inr hlt) hgood
          · exact hge
        · exact absurd habs (by simp)
      · rw [retrievedChunks_some _ sel _ hsome] at hc
        rcases List.mem_filterMap.mp hc with ⟨i, _, hget⟩
        exact List.get?_mem hget

/-- C4 witness: `process_pdf` on the two-character text "hi" fails with
the too-short message and leaves the fresh state untouched. -/
theorem rag_rejects_short_text_witness :
    processPdf 1500 150 (ragInit true) ("hi".data) (Except.ok ()) =
      ((false, tooShortMsg), ragInit true) :=
  (rag_rejects_short_text ("hi".data) (by decide)).1 (ragInit true) (Except.ok ())

/-- C5: with fixed chunk-size and overlap parameters, the number of chunks
produced for a long-enough document is the deterministic closed form
`numChunks` of the text length alone, and every character of the document
appears in at least one produced chunk (no data loss from splitting). -/
theorem chunking_deterministic_and_lossless (chunkSize overlap : Nat) (t : List Char)
    (h1 : overlap < chunkSize) (h2 : 50 ≤ (pyStrip t).length) :
    (splitText chunkSize overlap t).length = numChunks chunkSize overlap t.length ∧
    ∀ (i : Nat) (hi : i < t.length),
      ∃ ch ∈ splitText chunkSize overlap t, t[i] ∈ ch := by
  constructor
  · simp [splitText, numChunks]
  · intro i hi
    have h0 : 0 < chunkSize - overlap := by omega
    obtain ⟨q, r, hr, hiqr⟩ : ∃ q r, r < chunkSize - overlap ∧
        i = q * (chunkSize - overlap) + r :=
      ⟨i / (chunkSize - overlap), i % (chunkSize - overlap),
        Nat.mod_lt i h0, (Nat.div_add_mod' i (chunkSize - overlap)).symm⟩
    subst hiqr
    refine ⟨(t.drop (q * (chunkSize - overlap))).take chunkSize, ?_, ?_⟩
    · apply List.mem_map_of_mem
      apply List.mem_range.mpr
      have hq : q * (chunkSize - overlap) < t.length := by omega
      have e1 : (t.length + (chunkSize - overlap) - 1) / (chunkSize - overlap)
          = (t.length - 1) / (chunkSize - overlap) + 1 := by
        rw [show t.length + (chunkSize - overlap) - 1
            = (t.length - 1) + (chunkSize - overlap) by omega,
          Nat.add_div_right _ h0]
      rw [e1]
      have hq2 : q ≤ (t.length - 1) / (chunkSize - overlap) := by
        have := Nat.div_le_div_right (c := chunkSize - overlap)
          (show q * (chunkSize - overlap) ≤ t.length - 1 by omega)
        rwa [Nat.mul_div_cancel q h0] at this
      omega
    · have hdl : r < (t.drop (q * (chunkSize - overlap))).length := by
        rw [List.length_drop]; omega
      have htk : r < chunkSize := by omega
      have hrl : r < ((t.drop (q * (chunkSize - overlap))).take chunkSize).length := by
        rw [List.length_take]
        exact lt_min_iff.mpr ⟨htk, hdl⟩
      have hget : ((t.drop (q * (chunkSize - overlap))).take chunkSize)[r]
          = t[q * (chunkSize - overlap) + r] := by
        rw [List.getElem_take, List.getElem_drop]
      rw [← hget]
      exact List.getElem_mem hrl

/-- C5 witness: a 60-character text with the repository parameters
(chunk size 1500, overlap 150) yields exactly one chunk and every
character position is covered. -/
theorem chunking_deterministic_and_lossless_witness :
    (splitText 1500 150 (List.replicate 60 'a')).length
        = numChunks 1500 150 (List.replicate 60 'a').length ∧
    ∀ (i : Nat) (hi : i < (List.replicate 60 'a').length),
      ∃ ch ∈ splitText 1500 150 (List.replicate 60 'a'),
        (List.replicate 60 'a')[i] ∈ ch :=
  chunking_deterministic_and_lossless 1500 150 (List.replicate 60 'a')
    (by decide) (by decide)

/-! Response synthesis (src/core/agent.py, `_synthesize_response`) -/

/-- One entry of the `results` list built by `StudyBuddyAgent.execute`. -/
structure StepResult where
  step : Nat
  action : String
  tool : String
  result : String
deriving DecidableEq, Inhabited

/-- The trailing suggestions block appended by `_synthesize_response`
(`response += header` followed by one bullet line per suggestion). -/
def suggestionsBlock (suggestions : List String) : String :=
  "\n\n---\n\n💡 **I can also help you with:**\n" ++
    String.join (suggestions.map (fun s => "- " ++ s ++ "\n"))

/-- The multi-result synthesis prompt (the JSON rendering of the result
list performed by `json.dumps` is abstracted by a plain rendering; the
prompt is only ever consumed by the quantified LLM). -/
def synthesisPrompt (userRequest : String) (results : List StepResult) : String :=
  "You are Study Buddy AI Agent synthesizing multiple tool results into a coherent response."
    ++ "\n\nUSER REQUEST:\n" ++ userRequest ++ "\n\nEXECUTION RESULTS:\n"
    ++ String.intercalate "\n" (results.map (fun r => r.tool ++ ": " ++ r.result))
    ++ "\n\nYOUR TASK: create a natural, flowing response. Use Markdown formatting."

/-- `StudyBuddyAgent._synthesize_response(user_request, results, plan)`;
`llm` is the external `generate_response`. -/
def synthesizeResponse (llm : String → String) (userRequest : String)
    (results : List StepResult) (plan : AgentPlan) : String :=
  let response :=
    if results.length = 1 then (results.headI).result
    else llm (synthesisPrompt userRequest results)
  if plan.proactiveSuggestions = [] then response
  else response ++ suggestionsBlock plan.proactiveSuggestions

/-- C6: when exactly one step ran, the synthesized reply is the raw
result of that step (independent of the LLM — no synthesis call is made), followed
by the suggestions block exactly when the plan carries at least one
proactive suggestion; and for any result list whatsoever the reply is some
base text with the suggestions block appended exactly when suggestions
exist. -/
theorem synthesize_single_step_passthrough (llm llm2 : String → String)
    (userRequest : String) (results : List StepResult) (plan : AgentPlan)
    (h : results.length = 1) :
    synthesizeResponse llm userRequest results plan
        = synthesizeResponse llm2 userRequest results plan ∧
    synthesizeResponse llm userRequest results plan
        = (if plan.proactiveSuggestions = [] then (results.headI).result
           else (results.headI).result ++ suggestionsBlock plan.proactiveSuggestions) ∧
    (∀ results2 : List StepResult, ∃ base : String,
      synthesizeResponse llm userRequest results2 plan
        = (if plan.proactiveSuggestions = [] then base
           else base ++ suggestionsBlock plan.proactiveSuggestions)) := by
  refine ⟨?_, ?_, fun results2 => ⟨_, rfl⟩⟩
  · simp [synthesizeResponse, h]
  · simp [synthesizeResponse, h]

/-- C6 witness: a single executed step with one pending suggestion — the
reply is the raw step result with the suggestion bullet appended, for an
arbitrary concrete LLM. -/
theorem synthesize_single_step_passthrough_witness :
    synthesizeResponse (fun _ => "SYNTH") "r"
        [⟨1, "Respond to user", "concept_explainer", "RESULT"⟩]
        ⟨"r", "simple", [], [], ["Try a quiz"], 1/2, none⟩
      = (if (["Try a quiz"] : List String) = [] then "RESULT"
         else "RESULT" ++ suggestionsBlock ["Try a quiz"]) :=
  (synthesize_single_step_passthrough (fun _ => "SYNTH") (fun _ => "X") "r"
    [⟨1, "Respond to user", "concept_explainer", "RESULT"⟩]
    ⟨"r", "simple", [], [], ["Try a quiz"], 1/2, none⟩ rfl).2.1

/-! Language-model clients (src/utils/groq_helper.py and
src/utils/gemini_helper.py)

Both helpers return `String`; any exception escaping `generate_response`
would appear as `Except.error`, so the result type `Except String String`
makes "never raises" provable: every `except` branch in the source catches
the backend failure and returns a message string.  The backend calls are
the external parameters `groqApi`, `localGen` and `gemGen` (their
`Except.error` value is the exception message the `except` branch sees). -/

/-- Module-level configuration state of groq_helper.py after import:
`api_configured`, `USE_GROQ`, whether `groq_client` and `generator` are
non-`None`, and `_config_error`. -/
structure GroqConfig where
  apiConfigured : Bool
  useGroq : Bool
  clientPresent : Bool
  generatorPresent : Bool
  configError : String
deriving DecidableEq, Inhabited

def groqNoLLMMsg (configError : String) : String :=
  "❌ No LLM configured. \n\n" ++ configError ++
    "\n\nPlease set up Groq API:\n1. Get free API key from: https://console.groq.com\n2. Add to .env file: GROQ_API_KEY=your_key_here\n3. Restart the app\n\n"

def groqApiErrorMsg (e : String) : String :=
  "❌ Groq API error: " ++ e ++ "\n\nPlease check your API key in .env file."

def localErrorMsg (e : String) : String := "❌ Error generating response: " ++ e

def noResponseMsg : String := "⚠️ No response generated."

def noLLMAvailableMsg : String :=
  "❌ No LLM available. Please configure Groq API or install transformers for local LLM."

/-- The TinyLlama chat prompt built by the local-LLM paths. -/
def tinyLlamaPrompt (prompt : String) : String :=
  "<|system|>\nYou are Study Buddy, a helpful AI tutor.</s>\n<|user|>\n" ++
    prompt ++ "</s>\n<|assistant|>\n"

/-- Post-processing of the local generator output: take the text after the
last assistant tag and strip it; fall back to a notice when empty. -/
def localPostprocess (fullText : String) : String :=
  let response := ((fullText.splitOn "<|assistant|>").getLastD "").trim
  if response = "" then noResponseMsg else response

/-- `generate_response` of src/utils/groq_helper.py. -/
def groqGenerateResponse (cfg : GroqConfig) (prompt : String)
    (groqApi : String → Except String String)
    (localGen : String → Except String String) : Except String String :=
  if cfg.apiConfigured = false then Except.ok (groqNoLLMMsg cfg.configError)
  else if cfg.useGroq = true ∧ cfg.clientPresent = true then
    match groqApi prompt with
    | Except.ok response => Except.ok response
    | Except.error e => Except.ok (groqApiErrorMsg e)
  else if cfg.generatorPresent = true then
    match localGen (tinyLlamaPrompt prompt) with
    | Except.ok fullText => Except.ok (localPostprocess fullText)
    | Except.error e => Except.ok (localErrorMsg e)
  else Except.ok noLLMAvailableMsg

def geminiNotLoadedMsg (configError : String) : String :=
  "❌ Local LLM not loaded. \n\n" ++ configError ++
    "\n\nThe app is trying to load TinyLlama-1.1B locally.\nPlease wait or restart the app."

/-- `generate_response` of src/utils/gemini_helper.py. -/
def geminiGenerateResponse (apiConfigured generatorPresent : Bool)
    (configError : String) (prompt : String)
    (gemGen : String → Except String String) : Except String String :=
  if apiConfigured = false ∨ generatorPresent = false then
    Except.ok (geminiNotLoadedMsg configError)
  else
    match gemGen (tinyLlamaPrompt prompt) with
    | Except.ok fullText => Except.ok (localPostprocess fullText)
    | Except.error e => Except.ok (localErrorMsg e)

/-- C8: for every prompt, configuration and backend behaviour, both
`generate_response` helpers return a string and never raise: with no
backend configured the result is the descriptive no-LLM error string, and
a failing backend call yields the descriptive error string carrying the
exception text, so callers can only distinguish failure by inspecting the
returned string. -/
theorem llm_client_never_raises (cfg : GroqConfig) (prompt e : String)
    (groqApi localGen gemGen : String → Except String String)
    (gApiConfigured gGenPresent : Bool) (gConfigError : String) :
    (∃ s : String, groqGenerateResponse cfg prompt groqApi localGen = Except.ok s) ∧
    (cfg.apiConfigured = false →
      groqGenerateResponse cfg prompt groqApi localGen
        = Except.ok (groqNoLLMMsg cfg.configError)) ∧
    (cfg.apiConfigured = true → cfg.useGroq = true → cfg.clientPresent = true →
      groqApi prompt = Except.error e →
      groqGenerateResponse cfg prompt groqApi localGen
        = Except.ok (groqApiErrorMsg e)) ∧
    (∃ s : String, geminiGenerateResponse gApiConfigured gGenPresent gConfigError
        prompt gemGen = Except.ok s) ∧
    (gApiConfigured = false ∨ gGenPresent = false →
      geminiGenerateResponse gApiConfigured gGenPresent gConfigError prompt gemGen
        = Except.ok (geminiNotLoadedMsg gConfigError)) ∧
    (gApiConfigured = true → gGenPresent = true →
      gemGen (tinyLlamaPrompt prompt) = Except.error e →
      geminiGenerateResponse gApiConfigured gGenPresent gConfigError prompt gemGen
        = Except.ok (localErrorMsg e)) := by
  refine ⟨?_, ?_, ?_, ?_, ?_, ?_⟩
  · unfold groqGenerateResponse
    repeat' first
    | exact ⟨_, rfl⟩
    | split
  · intro h
    rw [groqGenerateResponse, if_pos h]
  · intro h1 h2 h3 h4
    rw [groqGenerateResponse, if_neg (by simp [h1]), if_pos ⟨h2, h3⟩, h4]
  · unfold geminiGenerateResponse
    repeat' first
    | exact ⟨_, rfl⟩
    | split
  · intro h
    rw [geminiGenerateResponse, if_pos h]
  · intro h1 h2 h3
    rw [geminiGenerateResponse, if_neg (by simp [h1, h2]), h3]

/-- C8 witness: with no backend configured the Groq helper returns the
descriptive configuration-error string, and a failing Gemini-helper
backend call returns the error string carrying the exception text. -/
theorem llm_client_never_raises_witness :
    groqGenerateResponse ⟨false, true, true, false, "boom"⟩ "p"
        (fun _ => Except.error "x") (fun _ => Except.error "y")
      = Except.ok (groqNoLLMMsg "boom") ∧
    geminiGenerateResponse true true "" "p" (fun _ => Except.error "x")
      = Except.ok (localErrorMsg "x") :=
  ⟨(llm_client_never_raises ⟨false, true, true, false, "boom"⟩ "p" "x"
      (fun _ => Except.error "x") (fun _ => Except.error "y")
      (fun _ => Except.error "x") true true "").2.1 rfl,
   (llm_client_never_raises ⟨false, true, true, false, "boom"⟩ "p" "x"
      (fun _ => Except.error "x") (fun _ => Except.error "y")
      (fun _ => Except.error "x") true true "").2.2.2.2.2 rfl rfl rfl⟩

/-! Agent execution (src/core/agent.py, `execute` and `_execute_tool`)

The mode functions (explainer, summarizer, quizzer) and the LLM are
external collaborators; they appear as the function-valued fields of
`AgentEnv`, closed over the rag system and pdf content they receive. -/

/-- External resources of a `StudyBuddyAgent`: the tool implementations,
`generate_response`, and the document state (`rag_system.is_ready()`,
`retrieve_context`, `pdf_content`). -/
structure AgentEnv where
  explainConcept : String → String → String
  summarizeText : String → String → String → String
  generateQuestions : String → String → String
  solveQuestions : String → String → String
  evaluateAnswers : String → String → String
  llm : String → String
  ragReady : Bool
  retrieve : String → Nat → String
  pdfContent : String

/-- The `pdf_context` computed at the top of `_execute_tool`: retrieved
context when the RAG system is ready, else the first 8000 characters of
the raw pdf text, else empty. -/
def pdfContextOf (env : AgentEnv) (userInput : String) : String :=
  if env.ragReady = true then env.retrieve userInput 3
  else if env.pdfContent ≠ "" then env.pdfContent.take 8000
  else ""

/-- `StudyBuddyAgent._execute_tool(tool_name, user_input, context)`: a
string-keyed dispatch over the six known tool names with a default
not-found message. -/
def executeTool (env : AgentEnv) (toolName userInput context : String) : String :=
  let pdfContext := pdfContextOf env userInput
  if toolName = "concept_explainer" then env.explainConcept userInput context
  else if toolName = "content_summarizer" then
    env.summarizeText (if pdfContext = "" then userInput else pdfContext) context userInput
  else if toolName = "quiz_generator" then env.generateQuestions userInput context
  else if toolName = "question_solver" then env.solveQuestions userInput context
  else if toolName = "answer_evaluator" then env.evaluateAnswers userInput context
  else if toolName = "pdf_retriever" then
    (if env.ragReady = true then env.retrieve userInput 5 else pdfContext)
  else "Tool " ++ toolName ++ " not found. Using default response."

/-- The six tool names `_execute_tool` dispatches on. -/
def knownToolNames : List String :=
  ["concept_explainer", "content_summarizer", "quiz_generator",
   "question_solver", "answer_evaluator", "pdf_retriever"]

/-- Mutable agent state threaded across `execute` calls: `tools_used` is
initialised once in `__init__` and only ever appended to; `current_plan`
is set by a successful `think` parse. -/
structure AgentState where
  toolsUsed : List String
  currentPlan : Option AgentPlan
deriving DecidableEq, Inhabited

/-- `StudyBuddyAgent.think` with its state effect: a successful parse also
stores the plan in `current_plan`; the fallback branch does not. -/
def agentThinkS (s : AgentState) (parsed : Except String AgentPlan)
    (userRequest : String) : AgentPlan × AgentState :=
  match parsed with
  | Except.ok p => (p, { s with currentPlan := some p })
  | Except.error e => (agentFallbackPlan userRequest e, s)

/-- `StudyBuddyAgent.execute(user_request, conversation_context)`: think,
run every step of the plan through `_execute_tool` (appending the tool
name of each step to `tools_used`), then synthesize.  Returns the result dict and
the updated agent state. -/
def agentExecute (env : AgentEnv) (parsed : Except String AgentPlan)
    (userRequest context : String) (s : AgentState) :
    (String × AgentPlan × List String × List AgentPlanStep × List String) × AgentState :=
  let plan := (agentThinkS s parsed userRequest).1
  let s1 := (agentThinkS s parsed userRequest).2
  let results := plan.executionPlan.map
    (fun st => (⟨st.step, st.action, st.tool,
      executeTool env st.tool userRequest context⟩ : StepResult))
  let toolsUsed := s1.toolsUsed ++ plan.executionPlan.map (fun st => st.tool)
  let finalResponse := synthesizeResponse env.llm userRequest results plan
  ((finalResponse, plan, toolsUsed, plan.executionPlan, plan.proactiveSuggestions),
    { s1 with toolsUsed := toolsUsed })

/-- C9: `_execute_tool` is total over tool names — any name outside the
six known ones (including names a malformed plan might invent) raises
nothing and yields the fixed not-found string as the step result — and
`execute` still processes every remaining plan step: the tool of each
step is recorded in order and every step contributes its `_execute_tool`
result. -/
theorem execute_tool_unknown_name_total (env : AgentEnv)
    (toolName userInput context : String) (h : toolName ∉ knownToolNames) :
    executeTool env toolName userInput context
        = "Tool " ++ toolName ++ " not found. Using default response." ∧
    (∀ (parsed : Except String AgentPlan) (req ctx : String) (s : AgentState),
      (agentExecute env parsed req ctx s).1.2.2.1
          = s.toolsUsed
            ++ ((agentThinkS s parsed req).1).executionPlan.map (fun st => st.tool) ∧
      (agentExecute env parsed req ctx s).1.2.2.2.1
          = ((agentThinkS s parsed req).1).executionPlan) := by
  constructor
  · simp only [knownToolNames, List.mem_cons, List.not_mem_nil, or_false,
      not_or] at h
    obtain ⟨h1, h2, h3, h4, h5, h6⟩ := h
    rw [executeTool]
    rw [if_neg h1, if_neg h2, if_neg h3, if_neg h4, if_neg h5, if_neg h6]
  · intro parsed req ctx s
    cases parsed with
    | ok p => exact ⟨rfl, rfl⟩
    | error e => exact ⟨rfl, rfl⟩

/-- One user request handled by `execute`: the planning-parse outcome for
that request together with the request text and conversation context. -/
structure AgentCall where
  parsed : Except String AgentPlan
  userRequest : String
  context : String

/-- A sequence of `execute` calls on one agent instance, collecting the
dict returned by each call. -/
def runAgent (env : AgentEnv) :
    List AgentCall → AgentState →
    List (String × AgentPlan × List String × List AgentPlanStep × List String) × AgentState
  | [], s => ([], s)
  | c :: rest, s =>
    let r := agentExecute env c.parsed c.userRequest c.context s
    let rs := runAgent env rest r.2
    (r.1 :: rs.1, rs.2)

/-- The tool names of the plan steps produced by `think` for one call. -/
def callPlanTools (c : AgentCall) : List String :=
  (agentThink c.parsed c.userRequest).executionPlan.map (fun st => st.tool)

lemma agentExecute_result_toolsUsed (env : AgentEnv) (c : AgentCall) (s : AgentState) :
    (agentExecute env c.parsed c.userRequest c.context s).1.2.2.1
      = s.toolsUsed ++ callPlanTools c := by
  cases c with
  | mk parsed req ctx => cases parsed <;> rfl

lemma agentExecute_state_toolsUsed (env : AgentEnv) (c : AgentCall) (s : AgentState) :
    (agentExecute env c.parsed c.userRequest c.context s).2.toolsUsed
      = s.toolsUsed ++ callPlanTools c := by
  cases c with
  | mk parsed req ctx => cases parsed <;> rfl

lemma runAgent_length (env : AgentEnv) (calls : List AgentCall) :
    ∀ s : AgentState, (runAgent env calls s).1.length = calls.length := by
  induction calls with
  | nil => intro s; rfl
  | cons c rest ih =>
    intro s
    show ((agentExecute env c.parsed c.userRequest c.context s).1 ::
      (runAgent env rest _).1).length = rest.length + 1
    rw [List.length_cons, ih]

lemma runAgent_get_toolsUsed (env : AgentEnv) (calls : List AgentCall) :
    ∀ (s : AgentState) (k : Nat), k < calls.length →
      ∃ r, (runAgent env calls s).1.get? k = some r ∧
        r.2.2.1 = s.toolsUsed ++ ((calls.take (k + 1)).map callPlanTools).flatten := by
  induction calls with
  | nil => intro s k hk; simp at hk
  | cons c rest ih =>
    intro s k hk
    cases k with
    | zero =>
      refine ⟨(agentExecute env c.parsed c.userRequest c.context s).1, rfl, ?_⟩
      rw [agentExecute_result_toolsUsed]
      simp [callPlanTools]
    | succ k' =>
      have hk' : k' < rest.length := by simpa using hk
      obtain ⟨r, hget, htools⟩ :=
        ih (agentExecute env c.parsed c.userRequest c.context s).2 k' hk'
      refine ⟨r, hget, ?_⟩
      rw [htools, agentExecute_state_toolsUsed, List.append_assoc,
        List.take_succ_cons, List.map_cons, List.flatten_cons]

/-- C10: the agent `tools_used` list is never cleared between requests —
over any sequence of `execute` calls on one agent instance, the
`tools_used` list returned by the k-th call is the initial list followed
by the plan-step tool names of calls 1 through k in order, so the
per-request metadata handed to callers accumulates the tools of all
earlier turns. -/
theorem tools_used_accumulates (env : AgentEnv) (calls : List AgentCall)
    (s : AgentState) (k : Nat) (hk : k < calls.length) :
    (runAgent env calls s).1.length = calls.length ∧
    ∃ r, (runAgent env calls s).1.get? k = some r ∧
      r.2.2.1 = s.toolsUsed ++ ((calls.take (k + 1)).map callPlanTools).flatten :=
  ⟨runAgent_length env calls s, runAgent_get_toolsUsed env calls s k hk⟩

/-- C10 witness: two consecutive requests whose plans each fall back to a
single `concept_explainer` step — the dict returned by the second call
already carries the tools of both calls. -/
theorem tools_used_accumulates_witness :
    (runAgent
        ⟨fun _ _ => "", fun _ _ _ => "", fun _ _ => "", fun _ _ => "",
         fun _ _ => "", fun _ => "", false, fun _ _ => "", ""⟩
        [⟨Except.error "e", "quiz me", ""⟩, ⟨Except.error "e", "explain X", ""⟩]
        ⟨[], none⟩).1.length
      = [(⟨Except.error "e", "quiz me", ""⟩ : AgentCall),
         ⟨Except.error "e", "explain X", ""⟩].length ∧
    ∃ r, (runAgent
        ⟨fun _ _ => "", fun _ _ _ => "", fun _ _ => "", fun _ _ => "",
         fun _ _ => "", fun _ => "", false, fun _ _ => "", ""⟩
        [⟨Except.error "e", "quiz me", ""⟩, ⟨Except.error "e", "explain X", ""⟩]
        ⟨[], none⟩).1.get? 1 = some r ∧
      r.2.2.1 = ([] : List String)
        ++ (([(⟨Except.error "e", "quiz me", ""⟩ : AgentCall),
              ⟨Except.error "e", "explain X", ""⟩].take 2).map callPlanTools).flatten :=
  tools_used_accumulates
    ⟨fun _ _ => "", fun _ _ _ => "", fun _ _ => "", fun _ _ => "",
     fun _ _ => "", fun _ => "", false, fun _ _ => "", ""⟩
    [⟨Except.error "e", "quiz me", ""⟩, ⟨Except.error "e", "explain X", ""⟩]
    ⟨[], none⟩ 1 (by decide)

/-- C9 witness: an invented tool name yields the fixed not-found string. -/
theorem execute_tool_unknown_name_total_witness :
    executeTool
        ⟨fun _ _ => "", fun _ _ _ => "", fun _ _ => "", fun _ _ => "",
         fun _ _ => "", fun _ => "", false, fun _ _ => "", ""⟩
        "magic_tool" "u" "c"
      = "Tool " ++ "magic_tool" ++ " not found. Using default response." :=
  (execute_tool_unknown_name_total
    ⟨fun _ _ => "", fun _ _ _ => "", fun _ _ => "", fun _ _ => "",
     fun _ _ => "", fun _ => "", false, fun _ _ => "", ""⟩
    "magic_tool" "u" "c" (by decide)).1

end StudyWithMe
